import Mathlib

set_option autoImplicit false

namespace BaileysApi

/-!
Shallow embedding of the session supervision and store-handler core of the
baileys-api repository. Registry state (the sessions, retries and
QRGenerations maps of src/src/session.ts), the credential-store key fixing of
src/unnamed/part_010, the webhook retry loop of src/src/services/webhook.ts
and the chat, contact and message store handlers of src/src/storeHandlers
are translated into executable Lean definitions and verified below.
-/

/-- Finite map from String keys, modelling a JavaScript Map or a table keyed
by a string column: an association list, with at most one binding per key
maintained by mset. -/
abbrev SMap (α : Type) := List (String × α)

/-- Lookup in an SMap, modelling Map.get (undefined becomes none). -/
def mget {α : Type} (m : SMap α) (k : String) : Option α :=
  (m.find? (fun p => p.1 == k)).map (fun p => p.2)

/-- Insert or overwrite in an SMap, modelling Map.set. -/
def mset {α : Type} (m : SMap α) (k : String) (v : α) : SMap α :=
  match m with
  | [] => [(k, v)]
  | p :: rest => if p.1 == k then (k, v) :: rest else p :: mset rest k v

/-- Removal from an SMap, modelling Map.delete. -/
def mdel {α : Type} (m : SMap α) (k : String) : SMap α :=
  m.filter (fun p => !(p.1 == k))

/-- Membership test for a list of string keys, modelling Map.has or
Array.includes. -/
def hasKey (l : List String) (k : String) : Bool :=
  l.any (fun s => s == k)

theorem mget_nil {α : Type} (k : String) : mget ([] : SMap α) k = none := rfl

theorem mget_cons {α : Type} (p : String × α) (l : SMap α) (k : String) :
    mget (p :: l) k = if p.1 == k then some p.2 else mget l k := by
  cases h : p.1 == k <;> simp [mget, List.find?, h]

theorem mget_mdel {α : Type} (m : SMap α) (k : String) : mget (mdel m k) k = none := by
  induction m with
  | nil => rfl
  | cons p rest ih =>
    cases h : p.1 == k <;> simp [mdel, List.filter_cons, h] <;>
      first
      | exact ih
      | · rw [mget_cons]
          simp [h]
          exact ih

theorem mdel_mdel {α : Type} (m : SMap α) (k : String) : mdel (mdel m k) k = mdel m k := by
  simp only [mdel, List.filter_filter, Bool.and_self]

theorem not_mem_filter_ne (l : List String) (k : String) :
    k ∉ l.filter (fun s => !(s == k)) := by
  intro hmem
  have := List.of_mem_filter hmem
  simp at this

theorem filter_ne_idem (l : List String) (k : String) :
    (l.filter (fun s => !(s == k))).filter (fun s => !(s == k))
      = l.filter (fun s => !(s == k)) := by
  induction l with
  | nil => rfl
  | cons a rest ih =>
    cases h : a == k <;> simp [List.filter_cons, h, ih]

/-! ## Session registry and teardown (src/src/session.ts) -/

/-- MAX_RECONNECT_RETRIES from src/src/session.ts line 27 with the
environment variable unset: Number(undefined or 5) = 5. -/
def MAX_RECONNECT_RETRIES : Nat := 5

/-- MAX_QR_GENERATION from src/src/session.ts line 28 with the environment
variable unset: Number(undefined or 5) = 5. -/
def MAX_QR_GENERATION : Nat := 5

/-- RECONNECT_INTERVAL from src/src/session.ts line 26 with the environment
variable unset: Number(undefined or 0) = 0. -/
def RECONNECT_INTERVAL : Nat := 0

/-- Baileys DisconnectReason.loggedOut. -/
def DisconnectReason_loggedOut : Nat := 401

/-- Baileys DisconnectReason.restartRequired. -/
def DisconnectReason_restartRequired : Nat := 515

/-- The process-wide registry state of src/src/session.ts: the keys of the
sessions map (line 21 import, populated in the constructor) and the retries
and QRGenerations maps (lines 23 and 24). -/
structure Registry where
  sessions : List String
  retries : SMap Nat
  qrGenerations : SMap Nat
  deriving Repr, DecidableEq

/-- Result of Session.destroy: the new registry, and whether the call threw
to its caller. -/
structure DestroyResult where
  registry : Registry
  threw : Bool
  deriving Repr, DecidableEq

/-- Embedding of Session.destroy, src/src/session.ts lines 184 to 204. The
logout parameter is the destroy argument (default true); the try block awaits
the optional transport logout and the durable config delete, and logoutFails
and dbFails say whether those reject. Any rejection is caught and logged
(lines 197 to 198), and the finally block (lines 199 to 203) always deletes
the session id from the sessions, retries and QRGenerations maps, so the
resulting registry does not depend on the logout flag or the failure flags
and the call never throws. -/
def destroy (sessionId : String) (logout logoutFails dbFails : Bool) (st : Registry) : DestroyResult :=
  { registry :=
      { sessions := st.sessions.filter (fun s => !(s == sessionId))
        retries := mdel st.retries sessionId
        qrGenerations := mdel st.qrGenerations sessionId }
    threw := false }

/-- Embedding of the static Session.delete, src/src/session.ts lines 151 to
153: Session.get(sessionId)?.destroy() is a no-op when the id is absent from
the sessions map (optional chaining), so it never throws. -/
def sessionDelete (sessionId : String) (logoutFails dbFails : Bool) (st : Registry) : DestroyResult :=
  if hasKey st.sessions sessionId then destroy sessionId true logoutFails dbFails st
  else { registry := st, threw := false }

/-! ## Credential store key canonicalization (src/unnamed/part_010) -/

/-- Embedding of fixId, src/unnamed/part_010 line 13: replace every forward
slash with two underscores, every colon with a hyphen and every period with
two hyphens. All three regexes are single-character global replacements, so
the function is a character-wise substitution. -/
def fixId (id : String) : String :=
  String.join (id.toList.map (fun c =>
    if c = '/' then "__"
    else if c = ':' then "-"
    else if c = '.' then "--"
    else String.singleton c))

/-- Durable credential record row of the sessions table as written by
src/unnamed/part_010: key columns (session_id, id), value column data. -/
structure SessionRecord where
  sessionId : String
  id : String
  data : String
  deriving Repr, DecidableEq

/-- Embedding of write, src/unnamed/part_010 lines 32 to 42: the record id is
first canonicalized with fixId, then the row keyed (session_id, fixId id) is
inserted, or its data column overwritten when the key already exists
(INSERT ... ON DUPLICATE KEY UPDATE). -/
def sessionStoreWrite (sessionId id data : String) (store : List SessionRecord) : List SessionRecord :=
  let key := fixId id
  if store.any (fun r => r.sessionId == sessionId && r.id == key) then
    store.map (fun r =>
      if r.sessionId == sessionId && r.id == key then { r with data := data } else r)
  else
    store ++ [{ sessionId := sessionId, id := key, data := data }]

/-! ## Webhook relay retry loop (src/src/services/webhook.ts) -/

/-- Embedding of the retry structure of requestWebhook,
src/src/services/webhook.ts lines 47 to 77, counting HTTP post attempts. The
oracle postOk tells whether the attempt with a given global index succeeds.
Each invocation initializes a local tries variable to 3 (line 52), performs
one post (line 65), and on failure recurses whenever tries is positive
(lines 69 to 71) -- which always holds, because tries is re-initialized to 3
in every invocation and only decremented after the recursive call returns
(line 72). The fuel argument makes the definition total; the theorems below
show the fuel is the only bound on the number of attempts. -/
def requestWebhookAttempts (fuel : Nat) (postOk : Nat → Bool) (idx : Nat) : Nat :=
  match fuel with
  | 0 => 0
  | f + 1 =>
    let tries := 3
    if postOk idx then 1
    else if tries > 0 then 1 + requestWebhookAttempts f postOk (idx + 1)
    else 1

theorem requestWebhookAttempts_allFail (fuel : Nat) (idx : Nat) :
    requestWebhookAttempts fuel (fun _ => false) idx = fuel := by
  induction fuel generalizing idx with
  | zero => rfl
  | succ f ih =>
    simp [requestWebhookAttempts, ih]
    omega

theorem hasKey_eq_true_iff (l : List String) (k : String) : hasKey l k = true ↔ k ∈ l := by
  simp only [hasKey, List.any_eq_true, beq_iff_eq]
  exact ⟨fun ⟨s, hs, he⟩ => he ▸ hs, fun h => ⟨k, h, rfl⟩⟩

theorem hasKey_filter_ne (l : List String) (k : String) :
    hasKey (l.filter (fun s => !(s == k))) k = false := by
  cases hh : hasKey (l.filter (fun s => !(s == k))) k
  · rfl
  · exact absurd ((hasKey_eq_true_iff _ _).mp hh) (not_mem_filter_ne l k)

/-- C3: destroy is idempotent and never leaves a dangling registry entry:
after destroy completes, the session id and its retry and QR counters are
absent from the Registry even if the transport logout call or the storage
delete fails, and a second destroy (or Session.delete) for the same id does
not throw and still leaves the Registry without the id. -/
theorem destroy_idempotent_no_dangling
    (sessionId : String) (logout lf db lf2 db2 : Bool) (st : Registry) :
    (destroy sessionId logout lf db st).threw = false
    ∧ sessionId ∉ (destroy sessionId logout lf db st).registry.sessions
    ∧ mget (destroy sessionId logout lf db st).registry.retries sessionId = none
    ∧ mget (destroy sessionId logout lf db st).registry.qrGenerations sessionId = none
    ∧ (destroy sessionId logout lf2 db2 (destroy sessionId logout lf db st).registry).threw = false
    ∧ (destroy sessionId logout lf2 db2 (destroy sessionId logout lf db st).registry).registry
        = (destroy sessionId logout lf db st).registry
    ∧ (sessionDelete sessionId lf2 db2 (destroy sessionId logout lf db st).registry).threw = false
    ∧ (sessionDelete sessionId lf2 db2 (destroy sessionId logout lf db st).registry).registry
        = (destroy sessionId logout lf db st).registry := by
  refine ⟨rfl, not_mem_filter_ne _ _, mget_mdel _ _, mget_mdel _ _, rfl, ?_, ?_, ?_⟩
  · simp [destroy, filter_ne_idem, mdel_mdel]
  · simp [sessionDelete, destroy, hasKey_filter_ne]
  · simp [sessionDelete, destroy, hasKey_filter_ne]

/-- C3 witness: a concrete registry holding the session acct1 together with
its retry and QR counters and an unrelated session acct2. -/
theorem destroy_idempotent_no_dangling_witness :
    (destroy "acct1" true true true (Registry.mk ["acct1", "acct2"] [("acct1", 2)] [("acct1", 4)])).threw = false
    ∧ "acct1" ∉ (destroy "acct1" true true true (Registry.mk ["acct1", "acct2"] [("acct1", 2)] [("acct1", 4)])).registry.sessions
    ∧ mget (destroy "acct1" true true true (Registry.mk ["acct1", "acct2"] [("acct1", 2)] [("acct1", 4)])).registry.retries "acct1" = none
    ∧ mget (destroy "acct1" true true true (Registry.mk ["acct1", "acct2"] [("acct1", 2)] [("acct1", 4)])).registry.qrGenerations "acct1" = none
    ∧ (destroy "acct1" true false false (destroy "acct1" true true true (Registry.mk ["acct1", "acct2"] [("acct1", 2)] [("acct1", 4)])).registry).threw = false
    ∧ (destroy "acct1" true false false (destroy "acct1" true true true (Registry.mk ["acct1", "acct2"] [("acct1", 2)] [("acct1", 4)])).registry).registry
        = (destroy "acct1" true true true (Registry.mk ["acct1", "acct2"] [("acct1", 2)] [("acct1", 4)])).registry
    ∧ (sessionDelete "acct1" false false (destroy "acct1" true true true (Registry.mk ["acct1", "acct2"] [("acct1", 2)] [("acct1", 4)])).registry).threw = false
    ∧ (sessionDelete "acct1" false false (destroy "acct1" true true true (Registry.mk ["acct1", "acct2"] [("acct1", 2)] [("acct1", 4)])).registry).registry
        = (destroy "acct1" true true true (Registry.mk ["acct1", "acct2"] [("acct1", 2)] [("acct1", 4)])).registry :=
  destroy_idempotent_no_dangling "acct1" true true true false false
    (Registry.mk ["acct1", "acct2"] [("acct1", 2)] [("acct1", 4)])

/-- C10: the credential-store identifier canonicalization is not injective:
the ids a.b and a--b are distinct but map to the same storage key, as do a:b
and a-b, so a key-store write for one logical record overwrites the row of
the other. -/
theorem fixId_not_injective :
    fixId "a.b" = fixId "a--b"
    ∧ "a.b" ≠ "a--b"
    ∧ fixId "a:b" = fixId "a-b"
    ∧ "a:b" ≠ "a-b"
    ∧ sessionStoreWrite "s" "a--b" "v2" (sessionStoreWrite "s" "a.b" "v1" [])
        = [{ sessionId := "s", id := "a--b", data := "v2" }] := by
  refine ⟨by decide, by decide, by decide, by decide, by decide⟩

/-- C4: the claim says a failed webhook delivery is retried at most 3
additional times; in the code the tries counter is re-initialized to 3 on
every recursive invocation and decremented only after the recursive call
returns, so when every post fails the number of attempts equals the fuel:
the retry loop is unbounded, far exceeding the claimed 1 + 3 attempts. -/
theorem requestWebhook_retry_unbounded :
    requestWebhookAttempts 10 (fun _ => false) 0 = 10
    ∧ requestWebhookAttempts 100 (fun _ => false) 0 = 100
    ∧ 1 + 3 < requestWebhookAttempts 100 (fun _ => false) 0 := by
  refine ⟨requestWebhookAttempts_allFail 10 0, requestWebhookAttempts_allFail 100 0, ?_⟩
  rw [requestWebhookAttempts_allFail]
  omega

/-! ## Chat store handler (src/src/storeHandlers/chat.ts) -/

/-- Mirrored Chat row keyed by (sessionId, id), restricted to the fields the
claims touch. unreadCount is the stored numeric column (none models NULL). -/
structure ChatRow where
  sessionId : String
  id : String
  unreadCount : Option Int
  conversationTimestamp : Option Int
  deriving Repr, DecidableEq

/-- Incoming chat payload after transformPrisma (src/src/utils.ts lines 84 to
101): wide integers are normalized to plain numbers and null or undefined
fields are pruned, so optional fields are Option valued with none meaning
absent. -/
structure ChatItem where
  id : String
  unreadCount : Option Int
  conversationTimestamp : Option Int
  deriving Repr, DecidableEq

/-- The created row of the bulk set and of upserts: the transformed payload
spread together with the sessionId column. -/
def chatRowOfItem (sessionId : String) (c : ChatItem) : ChatRow :=
  { sessionId := sessionId, id := c.id
    unreadCount := c.unreadCount, conversationTimestamp := c.conversationTimestamp }

/-- The existing-ids query of the bulk chat set, src/src/storeHandlers/chat.ts
lines 38 to 43: ids of the store rows whose id is among the batch ids and
whose sessionId matches. -/
def chatsSetExistingIds (sessionId : String) (chats : List ChatItem) (store : List ChatRow) : List String :=
  (store.filter (fun r => hasKey (chats.map (fun c => c.id)) r.id && r.sessionId == sessionId)).map
    (fun r => r.id)

/-- The createMany payload of the bulk chat set, src/src/storeHandlers/chat.ts
lines 45 to 52: the batch filtered to ids not in existingIds, each row spread
with the sessionId column. -/
def chatsSetAdded (sessionId : String) (chats : List ChatItem) (store : List ChatRow) : List ChatRow :=
  (chats.filter (fun c => !(hasKey (chatsSetExistingIds sessionId chats store) c.id))).map
    (chatRowOfItem sessionId)

/-- Embedding of the bulk chat set handler, src/src/storeHandlers/chat.ts
lines 19 to 59. An empty batch only logs and returns (Bool component true);
otherwise previously-unseen ids are appended inside one transaction. The
handler destructures isLatest but never uses it, so the set is a union for
every batch. -/
def chatsSet (sessionId : String) (chats : List ChatItem) (isLatest : Bool) (store : List ChatRow) :
    List ChatRow × Bool :=
  if chats.length == 0 then (store, true)
  else (store ++ chatsSetAdded sessionId chats store, false)

/-- The data written by the chat update, src/src/storeHandlers/chat.ts lines
123 to 135: the transformed patch is spread over the row, except that a
numeric unreadCount is applied as an increment when positive and as an
absolute set otherwise; an absent unreadCount leaves the column alone
(undefined). A Prisma increment of a NULL column leaves it NULL. -/
def applyChatPatch (p : ChatItem) (row : ChatRow) : ChatRow :=
  { row with
    conversationTimestamp :=
      match p.conversationTimestamp with
      | some t => some t
      | none => row.conversationTimestamp
    unreadCount :=
      match p.unreadCount with
      | some u =>
        if u > 0 then
          match row.unreadCount with
          | some v => some (v + u)
          | none => none
        else some u
      | none => row.unreadCount }

/-- Embedding of one iteration of the chat update loop,
src/src/storeHandlers/chat.ts lines 114 to 143: look up the row keyed
(sessionId, id); when absent the update is skipped (logged and dropped),
otherwise the patch is applied to the matching row. -/
def chatsUpdateOne (sessionId : String) (p : ChatItem) (store : List ChatRow) : List ChatRow :=
  if store.any (fun r => r.sessionId == sessionId && r.id == p.id) then
    store.map (fun r =>
      if r.sessionId == sessionId && r.id == p.id then applyChatPatch p r else r)
  else store

/-- Embedding of the chat delete handler, src/src/storeHandlers/chat.ts lines
151 to 167: deleteMany with a where clause that filters on id only -- the
sessionId in scope is not part of the clause. -/
def chatsDel (sessionId : String) (ids : List String) (store : List ChatRow) : List ChatRow :=
  store.filter (fun r => !(hasKey ids r.id))

/-! ## Contact store handler (src/src/storeHandlers/contact.ts) -/

/-- Mirrored Contact row keyed by (sessionId, id), restricted to the fields
the claims touch. -/
structure ContactRow where
  sessionId : String
  id : String
  name : Option String
  notify : Option String
  verifiedName : Option String
  deriving Repr, DecidableEq

/-- Incoming contact payload after transformPrisma: none means the field was
absent or null and was pruned; some of the empty string is possible because
transformPrisma does not prune empty strings. -/
structure ContactItem where
  id : String
  name : Option String
  notify : Option String
  verifiedName : Option String
  deriving Repr, DecidableEq

/-- JavaScript falsiness of an optional string field: absent or empty. -/
def isFalsyStr : Option String → Bool
  | none => true
  | some s => s == ""

/-- The name and notify deletion guards of the contact upsert and update,
src/src/storeHandlers/contact.ts lines 85 to 91 and 123 to 129: a falsy name
or notify is deleted from the patch object (and, for the upsert, from the
aliased create payload as well) so it cannot overwrite a stored value. -/
def contactScrub (c : ContactItem) : ContactItem :=
  { c with
    name := if isFalsyStr c.name then none else c.name
    notify := if isFalsyStr c.notify then none else c.notify }

/-- Spread of a (scrubbed) contact patch over an existing row: present fields
overwrite, absent fields are left alone. -/
def applyContactPatch (p : ContactItem) (row : ContactRow) : ContactRow :=
  { row with
    name := match p.name with | some s => some s | none => row.name
    notify := match p.notify with | some s => some s | none => row.notify
    verifiedName := match p.verifiedName with | some s => some s | none => row.verifiedName }

/-- Row created by a contact upsert for an absent key: the scrubbed payload
spread with the sessionId column. -/
def contactRowOfItem (sessionId : String) (c : ContactItem) : ContactRow :=
  { sessionId := sessionId, id := c.id
    name := c.name, notify := c.notify, verifiedName := c.verifiedName }

/-- Embedding of one item of the contact upsert,
src/src/storeHandlers/contact.ts lines 73 to 104: scrub falsy name and
notify, then insert the row keyed (sessionId, id) if absent, else apply the
scrubbed patch to it. -/
def contactUpsertOne (sessionId : String) (c : ContactItem) (store : List ContactRow) : List ContactRow :=
  let upd := contactScrub c
  if store.any (fun r => r.sessionId == sessionId && r.id == c.id) then
    store.map (fun r =>
      if r.sessionId == sessionId && r.id == c.id then applyContactPatch upd r else r)
  else store ++ [contactRowOfItem sessionId upd]

/-- Embedding of one iteration of the contact update loop,
src/src/storeHandlers/contact.ts lines 112 to 144: look up the row keyed
(sessionId, id); when absent the update is skipped, otherwise falsy name and
notify are deleted from the patch and the rest is applied. -/
def contactUpdateOne (sessionId : String) (c : ContactItem) (store : List ContactRow) : List ContactRow :=
  if store.any (fun r => r.sessionId == sessionId && r.id == c.id) then
    store.map (fun r =>
      if r.sessionId == sessionId && r.id == c.id then applyContactPatch (contactScrub c) r else r)
  else store

/-! ## Message store handler (src/src/storeHandlers/message.ts) -/

/-- Mirrored Message row keyed by (sessionId, remoteJid, id); the payload
columns are irrelevant to the claims. -/
structure MessageRow where
  sessionId : String
  remoteJid : String
  id : String
  deriving Repr, DecidableEq

/-- The Baileys MessageUpsertType union: append or notify. -/
inductive MessageUpsertType where
  | append
  | notify
  deriving Repr, DecidableEq

/-- Payload of the synthetic chats.upsert event emitted by the message upsert,
src/src/storeHandlers/message.ts lines 110 to 116. -/
structure SyntheticChatUpsert where
  id : String
  conversationTimestamp : Int
  unreadCount : Int
  deriving Repr, DecidableEq

/-- Embedding of one message of the message upsert handler,
src/src/storeHandlers/message.ts lines 84 to 124 (the switch covers both
append and notify): the conversation id is normalized (jidNormalizedUser, an
external Baileys function passed here as normalizeJid), the message row is
upserted under (sessionId, jid, msgId), and for a notify upsert whose
normalized conversation has no Chat row for this session a single synthetic
chats.upsert event with unreadCount 1 is emitted. -/
def messagesUpsertOne (sessionId : String) (normalizeJid : String → String)
    (ty : MessageUpsertType) (remoteJid msgId : String) (messageTimestamp : Int)
    (chatStore : List ChatRow) (msgStore : List MessageRow) :
    List MessageRow × List SyntheticChatUpsert :=
  let jid := normalizeJid remoteJid
  let msgStore2 :=
    if msgStore.any (fun m => m.sessionId == sessionId && m.remoteJid == jid && m.id == msgId)
    then msgStore
    else msgStore ++ [{ sessionId := sessionId, remoteJid := jid, id := msgId }]
  let chatExists : Bool :=
    decide (0 < (chatStore.filter (fun c => c.id == jid && c.sessionId == sessionId)).length)
  let events :=
    if (ty == MessageUpsertType.notify) && !chatExists then
      [{ id := jid, conversationTimestamp := messageTimestamp, unreadCount := 1 : SyntheticChatUpsert }]
    else []
  (msgStore2, events)

/-- C5: for a chat update whose patch carries a numeric unreadCount and whose
target row exists, a positive unreadCount is applied as an increment to the
stored value and a non-positive one as an absolute set. -/
theorem chats_update_unreadCount (sessionId : String) (p : ChatItem) (row : ChatRow) (u v : Int)
    (hsid : row.sessionId = sessionId) (hid : row.id = p.id)
    (hv : row.unreadCount = some v) (hu : p.unreadCount = some u) :
    (chatsUpdateOne sessionId p [row]).map ChatRow.unreadCount
      = [some (if u > 0 then v + u else u)] := by
  simp [chatsUpdateOne, applyChatPatch, hsid, hid, hv, hu]
  split <;> rfl

/-- C5 witness: a stored unread count of 3 becomes 5 under an update carrying
2 and becomes 0 under an update carrying 0. -/
theorem chats_update_unreadCount_witness :
    (chatsUpdateOne "acct1" (ChatItem.mk "chat1" (some 2) none)
        [ChatRow.mk "acct1" "chat1" (some 3) none]).map ChatRow.unreadCount = [some 5]
    ∧ (chatsUpdateOne "acct1" (ChatItem.mk "chat1" (some 0) none)
        [ChatRow.mk "acct1" "chat1" (some 3) none]).map ChatRow.unreadCount = [some 0] := by
  constructor
  · have h := chats_update_unreadCount "acct1" (ChatItem.mk "chat1" (some 2) none)
      (ChatRow.mk "acct1" "chat1" (some 3) none) 2 3 rfl rfl rfl rfl
    norm_num at h
    exact h
  · have h := chats_update_unreadCount "acct1" (ChatItem.mk "chat1" (some 0) none)
      (ChatRow.mk "acct1" "chat1" (some 3) none) 0 3 rfl rfl rfl rfl
    norm_num at h
    exact h

/-- C6: a contact upsert or update applied to an existing row with a
non-empty name and notify leaves both unchanged when the incoming item
carries an empty or absent name and notify. -/
theorem contact_empty_name_notify_preserved (sessionId : String) (c : ContactItem)
    (row : ContactRow) (nm nt : String)
    (hsid : row.sessionId = sessionId) (hid : row.id = c.id)
    (hname : row.name = some nm) (hnm : nm ≠ "")
    (hnotify : row.notify = some nt) (hnt : nt ≠ "")
    (hcn : isFalsyStr c.name = true) (hct : isFalsyStr c.notify = true) :
    (contactUpsertOne sessionId c [row]).map (fun r => (r.name, r.notify)) = [(some nm, some nt)]
    ∧ (contactUpdateOne sessionId c [row]).map (fun r => (r.name, r.notify)) = [(some nm, some nt)] := by
  constructor <;>
    simp [contactUpsertOne, contactUpdateOne, contactScrub, applyContactPatch,
      hsid, hid, hname, hnotify, hcn, hct]

/-- C6 witness: an existing contact named Alice with notify Ali keeps both
labels under an incoming item whose name is the empty string and whose
notify is absent. -/
theorem contact_empty_name_notify_preserved_witness :
    (contactUpsertOne "acct1" (ContactItem.mk "c1" (some "") none (some "V"))
        [ContactRow.mk "acct1" "c1" (some "Alice") (some "Ali") none]).map
        (fun r => (r.name, r.notify)) = [(some "Alice", some "Ali")]
    ∧ (contactUpdateOne "acct1" (ContactItem.mk "c1" (some "") none (some "V"))
        [ContactRow.mk "acct1" "c1" (some "Alice") (some "Ali") none]).map
        (fun r => (r.name, r.notify)) = [(some "Alice", some "Ali")] :=
  contact_empty_name_notify_preserved "acct1" (ContactItem.mk "c1" (some "") none (some "V"))
    (ContactRow.mk "acct1" "c1" (some "Alice") (some "Ali") none) "Alice" "Ali"
    rfl rfl rfl (by decide) rfl (by decide) (by decide) (by decide)

/-- C8: a message upsert of type notify whose normalized conversation id has
no mirrored Chat row for the session emits exactly one synthetic chats.upsert
event with unreadCount 1; when a Chat row exists, or the type is append, no
synthetic event is emitted. -/
theorem messages_upsert_synthetic_chat (sessionId : String) (normalizeJid : String → String)
    (ty : MessageUpsertType) (remoteJid msgId : String) (ts : Int)
    (chatStore : List ChatRow) (msgStore : List MessageRow) :
    (ty = MessageUpsertType.notify →
      (¬∃ c ∈ chatStore, c.id = normalizeJid remoteJid ∧ c.sessionId = sessionId) →
      (messagesUpsertOne sessionId normalizeJid ty remoteJid msgId ts chatStore msgStore).2
        = [{ id := normalizeJid remoteJid, conversationTimestamp := ts, unreadCount := 1 }])
    ∧ ((∃ c ∈ chatStore, c.id = normalizeJid remoteJid ∧ c.sessionId = sessionId) →
      (messagesUpsertOne sessionId normalizeJid ty remoteJid msgId ts chatStore msgStore).2 = [])
    ∧ (ty = MessageUpsertType.append →
      (messagesUpsertOne sessionId normalizeJid ty remoteJid msgId ts chatStore msgStore).2 = []) := by
  have hchar : 0 < (chatStore.filter
      (fun c => c.id == normalizeJid remoteJid && c.sessionId == sessionId)).length
      ↔ ∃ c ∈ chatStore, c.id = normalizeJid remoteJid ∧ c.sessionId = sessionId := by
    rw [List.length_pos]
    constructor
    · intro hne
      rcases List.exists_mem_of_ne_nil _ hne with ⟨c, hc⟩
      have hmem := List.mem_of_mem_filter hc
      have hp := List.of_mem_filter hc
      simp only [Bool.and_eq_true, beq_iff_eq] at hp
      exact ⟨c, hmem, hp.1, hp.2⟩
    · rintro ⟨c, hmem, h1, h2⟩ hnil
      have : c ∈ (chatStore.filter
          (fun c => c.id == normalizeJid remoteJid && c.sessionId == sessionId)) := by
        apply List.mem_filter.mpr
        exact ⟨hmem, by simp [h1, h2]⟩
      rw [hnil] at this
      exact absurd this (List.not_mem_nil c)
  refine ⟨?_, ?_, ?_⟩
  · intro hty hnone
    have hfalse : (decide (0 < (chatStore.filter
        (fun c => c.id == normalizeJid remoteJid && c.sessionId == sessionId)).length)) = false := by
      simp only [decide_eq_false_iff_not]
      exact fun hpos => hnone (hchar.mp hpos)
    simp [messagesUpsertOne, hty, hfalse]
  · intro hsome
    have htrue : (decide (0 < (chatStore.filter
        (fun c => c.id == normalizeJid remoteJid && c.sessionId == sessionId)).length)) = true := by
      simp only [decide_eq_true_eq]
      exact hchar.mpr hsome
    simp [messagesUpsertOne, htrue]
  · intro hty
    simp [messagesUpsertOne, hty]

/-- C8 witness: a notify message for conversation 123 with no chat row for
acct1 emits one synthetic chats.upsert with unreadCount 1; with the chat row
present, or with an append upsert, nothing is emitted. -/
theorem messages_upsert_synthetic_chat_witness :
    ((messagesUpsertOne "acct1" id MessageUpsertType.notify "123" "m1" 9
        [] []).2 = [{ id := "123", conversationTimestamp := 9, unreadCount := 1 }])
    ∧ ((messagesUpsertOne "acct1" id MessageUpsertType.notify "123" "m1" 9
        [ChatRow.mk "acct1" "123" (some 0) none] []).2 = [])
    ∧ ((messagesUpsertOne "acct1" id MessageUpsertType.append "123" "m1" 9
        [] []).2 = []) := by
  refine ⟨?_, ?_, ?_⟩
  · exact (messages_upsert_synthetic_chat "acct1" id MessageUpsertType.notify "123" "m1" 9
      [] []).1 rfl (by simp)
  · exact (messages_upsert_synthetic_chat "acct1" id MessageUpsertType.notify "123" "m1" 9
      [ChatRow.mk "acct1" "123" (some 0) none] []).2.1
      ⟨ChatRow.mk "acct1" "123" (some 0) none, by simp, rfl, rfl⟩
  · exact (messages_upsert_synthetic_chat "acct1" id MessageUpsertType.append "123" "m1" 9
      [] []).2.2 rfl

/-- C9: the chat delete handler is not scoped by sessionId: a chats.delete
event processed for session acct1 removes the chat row of session acct2 that
shares the id, contradicting the per-session scoping contract. -/
theorem chats_del_cross_session :
    chatsDel "acct1" ["123"] [ChatRow.mk "acct2" "123" (some 1) none] = []
    ∧ ("acct2" : String) ≠ "acct1" := by
  exact ⟨by decide, by decide⟩

theorem hasKey_eq_false_iff (l : List String) (k : String) : hasKey l k = false ↔ k ∉ l := by
  constructor
  · intro h hmem
    have hh := (hasKey_eq_true_iff l k).mpr hmem
    rw [h] at hh
    exact Bool.noConfusion hh
  · intro h
    cases hh : hasKey l k
    · rfl
    · exact absurd ((hasKey_eq_true_iff l k).mp hh) h

theorem mem_chatsSetExistingIds_iff (sessionId : String) (chats : List ChatItem)
    (store : List ChatRow) (x : String) :
    x ∈ chatsSetExistingIds sessionId chats store
      ↔ (∃ c ∈ chats, c.id = x) ∧ ∃ r ∈ store, r.sessionId = sessionId ∧ r.id = x := by
  unfold chatsSetExistingIds
  constructor
  · intro hx
    rcases List.mem_map.mp hx with ⟨r, hrf, hrx⟩
    have hmem := List.mem_of_mem_filter hrf
    have hp := List.of_mem_filter hrf
    simp only [Bool.and_eq_true, beq_iff_eq] at hp
    obtain ⟨hk, hsid⟩ := hp
    rcases List.mem_map.mp ((hasKey_eq_true_iff _ _).mp hk) with ⟨c, hc, hcid⟩
    exact ⟨⟨c, hc, by rw [hcid, hrx]⟩, ⟨r, hmem, hsid, hrx⟩⟩
  · rintro ⟨⟨c, hc, hcx⟩, ⟨r, hr, hrs, hrx⟩⟩
    apply List.mem_map.mpr
    refine ⟨r, ?_, hrx⟩
    apply List.mem_filter.mpr
    refine ⟨hr, ?_⟩
    simp only [Bool.and_eq_true, beq_iff_eq]
    refine ⟨(hasKey_eq_true_iff _ _).mpr (List.mem_map.mpr ⟨c, hc, by rw [hcx, hrx]⟩), hrs⟩

theorem mem_chatsSetAdded_iff (sessionId : String) (chats : List ChatItem)
    (store : List ChatRow) (a : ChatRow) :
    a ∈ chatsSetAdded sessionId chats store
      ↔ ∃ c ∈ chats, c.id ∉ chatsSetExistingIds sessionId chats store
          ∧ a = chatRowOfItem sessionId c := by
  unfold chatsSetAdded
  rw [List.mem_map]
  constructor
  · rintro ⟨c, hcf, rfl⟩
    have hmem := List.mem_of_mem_filter hcf
    have hp := List.of_mem_filter hcf
    simp only [Bool.not_eq_true'] at hp
    exact ⟨c, hmem, (hasKey_eq_false_iff _ _).mp hp, rfl⟩
  · rintro ⟨c, hc, hnot, rfl⟩
    refine ⟨c, ?_, rfl⟩
    apply List.mem_filter.mpr
    refine ⟨hc, ?_⟩
    simp only [Bool.not_eq_true']
    exact (hasKey_eq_false_iff _ _).mpr hnot

theorem chatsSetAdded_fresh (sessionId : String) (chats : List ChatItem) (store : List ChatRow) :
    ∀ a ∈ chatsSetAdded sessionId chats store,
      a.sessionId = sessionId ∧ ∀ r ∈ store, r.sessionId = sessionId → r.id ≠ a.id := by
  intro a ha
  rcases (mem_chatsSetAdded_iff sessionId chats store a).mp ha with ⟨c, hc, hnot, rfl⟩
  refine ⟨rfl, ?_⟩
  intro r hr hrs hreq
  apply hnot
  apply (mem_chatsSetExistingIds_iff sessionId chats store c.id).mpr
  exact ⟨⟨c, hc, rfl⟩, ⟨r, hr, hrs, hreq⟩⟩

theorem chatsSetAdded_replay (sessionId : String) (chats : List ChatItem) (store : List ChatRow) :
    chatsSetAdded sessionId chats (store ++ chatsSetAdded sessionId chats store) = [] := by
  unfold chatsSetAdded
  rw [List.map_eq_nil_iff, List.filter_eq_nil_iff]
  intro c hc
  simp only [Bool.not_eq_true', Bool.not_eq_false]
  apply (hasKey_eq_true_iff _ _).mpr
  apply (mem_chatsSetExistingIds_iff _ _ _ _).mpr
  refine ⟨⟨c, hc, rfl⟩, ?_⟩
  by_cases hmem : c.id ∈ chatsSetExistingIds sessionId chats store
  · rcases ((mem_chatsSetExistingIds_iff _ _ _ _).mp hmem).2 with ⟨r, hr, hrs, hrx⟩
    exact ⟨r, List.mem_append_left _ hr, hrs, hrx⟩
  · refine ⟨chatRowOfItem sessionId c, ?_, rfl, rfl⟩
    exact List.mem_append_right _
      ((mem_chatsSetAdded_iff _ _ _ _).mpr ⟨c, hc, hmem, rfl⟩)

/-- Key uniqueness of the chat mirror: no two rows share the composite key
(sessionId, id). -/
def chatKeysUnique (store : List ChatRow) : Prop :=
  store.Pairwise (fun r1 r2 => r1.sessionId ≠ r2.sessionId ∨ r1.id ≠ r2.id)

theorem chatsSet_result_unique (sessionId : String) (chats : List ChatItem) (store : List ChatRow)
    (hbatch : (chats.map (fun c => c.id)).Nodup) (hstore : chatKeysUnique store) :
    chatKeysUnique (store ++ chatsSetAdded sessionId chats store) := by
  unfold chatKeysUnique
  rw [List.pairwise_append]
  refine ⟨hstore, ?_, ?_⟩
  · unfold chatsSetAdded
    rw [List.pairwise_map]
    have hp : chats.Pairwise (fun c1 c2 => c1.id ≠ c2.id) := by
      rw [List.Nodup, List.pairwise_map] at hbatch
      exact hbatch
    exact ((hp.sublist (List.filter_sublist _)).imp (fun h => Or.inr h))
  · intro r hr a ha
    have hprop := chatsSetAdded_fresh sessionId chats store a ha
    by_cases hs : r.sessionId = sessionId
    · exact Or.inr (hprop.2 r hr hs)
    · exact Or.inl (by rw [hprop.1]; exact hs)

/-- C7: the bulk chat set is a union, not a replace: with isLatest false,
only ids not already present for the session are inserted and existing rows
are untouched, replaying the same batch twice leaves the mirror unchanged
with at most one row per (sessionId, id) key, and an empty batch performs no
durable write and only logs. -/
theorem chats_set_union (sessionId : String) (chats : List ChatItem) (store : List ChatRow)
    (hbatch : (chats.map (fun c => c.id)).Nodup) (hstore : chatKeysUnique store) :
    (∃ added : List ChatRow,
      (chatsSet sessionId chats false store).1 = store ++ added
      ∧ ∀ a ∈ added, a.sessionId = sessionId
          ∧ ∀ r ∈ store, r.sessionId = sessionId → r.id ≠ a.id)
    ∧ (chatsSet sessionId chats false ((chatsSet sessionId chats false store).1)).1
        = (chatsSet sessionId chats false store).1
    ∧ chatKeysUnique ((chatsSet sessionId chats false store).1)
    ∧ chatsSet sessionId ([] : List ChatItem) false store = (store, true) := by
  by_cases hchats : (chats.length == 0) = true
  · have hnil : chats = [] := by
      simpa using hchats
    subst hnil
    refine ⟨⟨[], by simp [chatsSet], by simp⟩, by simp [chatsSet], ?_, rfl⟩
    simpa [chatsSet] using hstore
  · have hfalse : (chats.length == 0) = false := by
      simpa using hchats
    refine ⟨⟨chatsSetAdded sessionId chats store, by simp [chatsSet, hfalse],
      chatsSetAdded_fresh sessionId chats store⟩, ?_, ?_, rfl⟩
    · simp only [chatsSet, hfalse, Bool.false_eq_true, if_false]
      rw [chatsSetAdded_replay, List.append_nil]
    · simp only [chatsSet, hfalse, Bool.false_eq_true, if_false]
      exact chatsSet_result_unique sessionId chats store hbatch hstore

/-- C7 witness: replaying a two-chat batch for acct1 over an empty mirror
inserts each chat once and a second replay changes nothing. -/
theorem chats_set_union_witness :
    (∃ added : List ChatRow,
      (chatsSet "acct1" [ChatItem.mk "c1" none none, ChatItem.mk "c2" (some 1) none] false []).1
        = [] ++ added
      ∧ ∀ a ∈ added, a.sessionId = "acct1"
          ∧ ∀ r ∈ ([] : List ChatRow), r.sessionId = "acct1" → r.id ≠ a.id)
    ∧ (chatsSet "acct1" [ChatItem.mk "c1" none none, ChatItem.mk "c2" (some 1) none] false
        ((chatsSet "acct1" [ChatItem.mk "c1" none none, ChatItem.mk "c2" (some 1) none] false []).1)).1
      = (chatsSet "acct1" [ChatItem.mk "c1" none none, ChatItem.mk "c2" (some 1) none] false []).1
    ∧ chatKeysUnique ((chatsSet "acct1" [ChatItem.mk "c1" none none, ChatItem.mk "c2" (some 1) none] false []).1)
    ∧ chatsSet "acct1" ([] : List ChatItem) false ([] : List ChatRow) = ([], true) :=
  chats_set_union "acct1" [ChatItem.mk "c1" none none, ChatItem.mk "c2" (some 1) none] []
    (by decide) List.Pairwise.nil

/-! ## Connection close and reconnection policy (src/src/session.ts) -/

/-- Result of shouldReconnect: the updated retries map, whether the counter
was incremented, and the returned decision. -/
structure ShouldReconnectResult where
  retries : SMap Nat
  incremented : Bool
  result : Bool
  deriving Repr, DecidableEq

/-- Embedding of shouldReconnect, src/src/session.ts lines 46 to 61, with the
environment defaults: both the local maxRetries and MAX_RECONNECT_RETRIES
evaluate to 5, so the disjunct comparing maxRetries with minus one is false.
When the stored attempt count (0 when absent) is below the ceiling, the
counter is set to its successor and true is returned; otherwise the map is
untouched and false is returned. -/
def shouldReconnect (sessionId : String) (retries : SMap Nat) : ShouldReconnectResult :=
  let attempts := (mget retries sessionId).getD 0
  if attempts < MAX_RECONNECT_RETRIES then
    { retries := mset retries sessionId (attempts + 1), incremented := true, result := true }
  else
    { retries := retries, incremented := false, result := false }

/-- Observable outcome of handleConnectionClose: the registry afterwards,
whether the retry counter was incremented during the call, whether the
session was destroyed, the logout flag passed to destroy, and whether and
with which delay a reconnection timer was scheduled. -/
structure CloseResult where
  registry : Registry
  retriesIncremented : Bool
  destroyed : Bool
  destroyLogout : Bool
  reconnectScheduled : Bool
  reconnectDelay : Nat
  deriving Repr, DecidableEq

/-- Embedding of Session.handleConnectionClose, src/src/session.ts lines 336
to 381: the switch on the reason code only logs; shouldReconnect runs first,
unconditionally, and may increment the retry counter; then a logged-out
reason or an exhausted budget destroys the session, passing doNotReconnect
as the logout argument (the attached HTTP response only receives an error
write), while every other case calls reconnect, which schedules a
Session.create timer with delay 0 for restartRequired and RECONNECT_INTERVAL
otherwise (lines 383 to 388). reasonCode none models a close without a
lastDisconnect error. -/
def handleConnectionClose (sessionId : String) (reasonCode : Option Nat) (st : Registry) : CloseResult :=
  let sr := shouldReconnect sessionId st.retries
  let st1 : Registry := { st with retries := sr.retries }
  let doNotReconnect := !sr.result
  if (reasonCode == some DisconnectReason_loggedOut) || doNotReconnect then
    { registry := (destroy sessionId doNotReconnect false false st1).registry
      retriesIncremented := sr.incremented
      destroyed := true
      destroyLogout := doNotReconnect
      reconnectScheduled := false
      reconnectDelay := 0 }
  else
    { registry := st1
      retriesIncremented := sr.incremented
      destroyed := false
      destroyLogout := false
      reconnectScheduled := true
      reconnectDelay :=
        if reasonCode == some DisconnectReason_restartRequired then 0 else RECONNECT_INTERVAL }

/-! ## QR generation on connection updates (src/src/session.ts) -/

/-- Observable outcome of the QR part of handleConnectionUpdate: the registry
afterwards, the cached lastGeneratedQR field of the Session, the QR image
rendered during this event (if any), and whether the session was destroyed. -/
structure QRUpdateResult where
  registry : Registry
  lastGeneratedQR : Option String
  renderedQR : Option String
  destroyed : Bool
  deriving Repr, DecidableEq

/-- Embedding of the QR part of Session.handleConnectionUpdate,
src/src/session.ts lines 279 to 334, for a session without pairing-by-code
(the branch at lines 282 to 298 is skipped). qr is the QR payload of the
connection state and renderOk models whether toDataURL succeeds; rendering
is modeled by tagging the payload. currentQRGenerations defaults to minus
one when the map has no entry (line 302); on a successful render the image
is cached in lastGeneratedQR and the counter is set to the successor of the
pre-event value (lines 304 to 312); limitReached compares the pre-event
counter with MAX_QR_GENERATION (line 314) and, when reached, this.destroy()
is called (line 316); the remaining lines only write to the attached HTTP
response. -/
def handleConnectionUpdateQR (sessionId : String) (qr : Option String) (renderOk : Bool)
    (lastQR : Option String) (st : Registry) : QRUpdateResult :=
  let currentQRGenerations : Int :=
    match mget st.qrGenerations sessionId with
    | some n => (n : Int)
    | none => -1
  let generatedQR : Option String :=
    match qr with
    | some payload => if renderOk then some ("image:" ++ payload) else none
    | none => none
  let st1 : Registry :=
    match generatedQR with
    | some _ =>
      { st with qrGenerations := mset st.qrGenerations sessionId (currentQRGenerations + 1).toNat }
    | none => st
  let lastQR1 : Option String :=
    match generatedQR with
    | some img => some img
    | none => lastQR
  let limitReached := currentQRGenerations ≥ (MAX_QR_GENERATION : Int)
  if limitReached then
    { registry := (destroy sessionId true false false st1).registry
      lastGeneratedQR := lastQR1
      renderedQR := generatedQR
      destroyed := true }
  else
    { registry := st1, lastGeneratedQR := lastQR1, renderedQR := generatedQR, destroyed := false }

/-- State of a run of QR-bearing connection-update events for one fresh
session: the registry, the cached QR, the number of images rendered so far
and whether the session has been destroyed. -/
structure QRRunState where
  registry : Registry
  lastGeneratedQR : Option String
  renders : Nat
  destroyed : Bool
  deriving Repr, DecidableEq

/-- A fresh session: present in the sessions map with no counters, as after
the Session constructor. -/
def qrRunInit (sessionId : String) : QRRunState :=
  { registry := { sessions := [sessionId], retries := [], qrGenerations := [] }
    lastGeneratedQR := none, renders := 0, destroyed := false }

/-- One QR-bearing connection-update event with a successful render, applied
while the session is alive; once destroyed the session is gone and no
further events are processed for it. -/
def qrRunStep (sessionId : String) (s : QRRunState) : QRRunState :=
  if s.destroyed then s
  else
    let r := handleConnectionUpdateQR sessionId (some "qr-payload") true s.lastGeneratedQR s.registry
    { registry := r.registry
      lastGeneratedQR := r.lastGeneratedQR
      renders := s.renders + (if r.renderedQR.isSome then 1 else 0)
      destroyed := r.destroyed }

/-- A run of n consecutive QR-bearing connection-update events from a fresh
session. -/
def qrRun (sessionId : String) : Nat → QRRunState
  | 0 => qrRunInit sessionId
  | n + 1 => qrRunStep sessionId (qrRun sessionId n)

theorem qrRunStep_start (sessionId : String) (lastQR : Option String) (r : Nat) :
    qrRunStep sessionId (QRRunState.mk (Registry.mk [sessionId] [] []) lastQR r false)
      = QRRunState.mk (Registry.mk [sessionId] [] [(sessionId, 0)])
          (some "image:qr-payload") (r + 1) false := rfl

theorem qrRunStep_alive (sessionId : String) (j : Nat) (hj : j < MAX_QR_GENERATION)
    (lastQR : Option String) (r : Nat) :
    qrRunStep sessionId (QRRunState.mk (Registry.mk [sessionId] [] [(sessionId, j)]) lastQR r false)
      = QRRunState.mk (Registry.mk [sessionId] [] [(sessionId, j + 1)])
          (some "image:qr-payload") (r + 1) false := by
  have hlim : ¬ ((j : Int) ≥ (MAX_QR_GENERATION : Int)) := by
    simp only [MAX_QR_GENERATION] at hj ⊢
    omega
  have htn : ((j : Int) + 1).toNat = j + 1 := by omega
  simp [qrRunStep, handleConnectionUpdateQR, mget, mset, List.find?, hlim, htn]

theorem qrRunStep_limit (sessionId : String) (j : Nat) (hj : MAX_QR_GENERATION ≤ j)
    (lastQR : Option String) (r : Nat) :
    qrRunStep sessionId (QRRunState.mk (Registry.mk [sessionId] [] [(sessionId, j)]) lastQR r false)
      = QRRunState.mk (Registry.mk [] [] []) (some "image:qr-payload") (r + 1) true := by
  have hlim : ((j : Int) ≥ (MAX_QR_GENERATION : Int)) := by
    simp only [MAX_QR_GENERATION] at hj ⊢
    omega
  simp [qrRunStep, handleConnectionUpdateQR, destroy, mget, mset, mdel, List.find?, hlim]

theorem qrRunStep_dead (sessionId : String) (s : QRRunState) (h : s.destroyed = true) :
    qrRunStep sessionId s = s := by
  simp [qrRunStep, h]

theorem qrRun_alive (sessionId : String) :
    ∀ k, k ≤ MAX_QR_GENERATION → qrRun sessionId (k + 1)
      = QRRunState.mk (Registry.mk [sessionId] [] [(sessionId, k)])
          (some "image:qr-payload") (k + 1) false := by
  intro k
  induction k with
  | zero =>
    intro _
    show qrRunStep sessionId (qrRunInit sessionId) = _
    exact qrRunStep_start sessionId none 0
  | succ j ih =>
    intro hj
    show qrRunStep sessionId (qrRun sessionId (j + 1)) = _
    rw [ih (Nat.le_of_succ_le hj)]
    exact qrRunStep_alive sessionId j (Nat.lt_of_succ_le hj) _ _

theorem qrRun_destroyedAt (sessionId : String) :
    qrRun sessionId (MAX_QR_GENERATION + 2)
      = QRRunState.mk (Registry.mk [] [] []) (some "image:qr-payload")
          (MAX_QR_GENERATION + 2) true := by
  show qrRunStep sessionId (qrRun sessionId (MAX_QR_GENERATION + 1)) = _
  rw [qrRun_alive sessionId MAX_QR_GENERATION (Nat.le_refl _)]
  exact qrRunStep_limit sessionId MAX_QR_GENERATION (Nat.le_refl _) _ _

theorem qrRun_absorbed (sessionId : String) :
    ∀ k, MAX_QR_GENERATION + 2 ≤ k → qrRun sessionId k = qrRun sessionId (MAX_QR_GENERATION + 2) := by
  intro k
  induction k with
  | zero => intro h; exact absurd h (by omega)
  | succ j ih =>
    intro h
    by_cases hj : MAX_QR_GENERATION + 2 ≤ j
    · show qrRunStep sessionId (qrRun sessionId j) = _
      rw [ih hj, qrRun_destroyedAt]
      exact qrRunStep_dead sessionId _ rfl
    · have hje : j + 1 = MAX_QR_GENERATION + 2 := by omega
      rw [hje]

theorem qrRun_renders_le (sessionId : String) :
    ∀ k, (qrRun sessionId k).renders ≤ MAX_QR_GENERATION + 2 := by
  intro k
  rcases Nat.lt_or_ge k (MAX_QR_GENERATION + 2) with hlt | hge
  · cases k with
    | zero => simp [qrRun, qrRunInit]
    | succ j =>
      rw [qrRun_alive sessionId j (by omega)]
      show j + 1 ≤ MAX_QR_GENERATION + 2
      omega
  · rw [qrRun_absorbed sessionId k hge, qrRun_destroyedAt]

/-- C1 counterexample: with MAX_QR_GENERATION = 5, six consecutive QR-bearing
connection updates leave the session alive after six rendered images --
already more than the cap -- and the seventh event, arriving with the
counter at the cap, still renders and caches a seventh image before the
session is destroyed. -/
theorem qr_cap_counterexample :
    MAX_QR_GENERATION = 5
    ∧ (qrRun "acct1" 6).destroyed = false
    ∧ (qrRun "acct1" 6).renders = 6
    ∧ MAX_QR_GENERATION < (qrRun "acct1" 6).renders
    ∧ mget (qrRun "acct1" 6).registry.qrGenerations "acct1" = some MAX_QR_GENERATION
    ∧ (qrRun "acct1" 7).destroyed = true
    ∧ (qrRun "acct1" 7).renders = 7
    ∧ (qrRun "acct1" 7).lastGeneratedQR = some "image:qr-payload"
    ∧ ((handleConnectionUpdateQR "acct1" (some "qr-payload") true
        (qrRun "acct1" 6).lastGeneratedQR (qrRun "acct1" 6).registry).renderedQR).isSome = true := by
  refine ⟨rfl, by decide, by decide, by decide, by decide, by decide, by decide, by decide, by decide⟩

/-- C1 amended: the cap check compares the pre-event counter (initialized to
minus one) with MAX_QR_GENERATION, so a fresh session can receive up to
MAX_QR_GENERATION + 2 rendered QR images: each of the first
MAX_QR_GENERATION + 1 QR events renders and leaves the session alive, the
next one renders and caches one final image and then destroys the session
(removing it from the registry), and no run ever renders more than
MAX_QR_GENERATION + 2 images. -/
theorem qr_cap_amended (sessionId : String) :
    (∀ k, k ≤ MAX_QR_GENERATION →
      (qrRun sessionId (k + 1)).destroyed = false ∧ (qrRun sessionId (k + 1)).renders = k + 1)
    ∧ ((qrRun sessionId (MAX_QR_GENERATION + 2)).destroyed = true
        ∧ (qrRun sessionId (MAX_QR_GENERATION + 2)).renders = MAX_QR_GENERATION + 2
        ∧ (qrRun sessionId (MAX_QR_GENERATION + 2)).lastGeneratedQR = some "image:qr-payload"
        ∧ sessionId ∉ (qrRun sessionId (MAX_QR_GENERATION + 2)).registry.sessions)
    ∧ (∀ k, (qrRun sessionId k).renders ≤ MAX_QR_GENERATION + 2) := by
  refine ⟨?_, ?_, qrRun_renders_le sessionId⟩
  · intro k hk
    rw [qrRun_alive sessionId k hk]
    exact ⟨rfl, rfl⟩
  · rw [qrRun_destroyedAt]
    exact ⟨rfl, rfl, rfl, by simp⟩

/-- C1 amended witness: for session acct1 the sixth event is alive with six
renders and the seventh run state is destroyed. -/
theorem qr_cap_amended_witness :
    ((qrRun "acct1" (5 + 1)).destroyed = false ∧ (qrRun "acct1" (5 + 1)).renders = 5 + 1)
    ∧ (qrRun "acct1" (MAX_QR_GENERATION + 2)).destroyed = true
    ∧ (qrRun "acct1" 3).renders ≤ MAX_QR_GENERATION + 2 :=
  ⟨(qr_cap_amended "acct1").1 5 (by decide),
   (qr_cap_amended "acct1").2.1.1,
   (qr_cap_amended "acct1").2.2 3⟩

/-- C2 counterexample: a logged-out close for a session with no prior retry
entry increments the retry counter: shouldReconnect runs before the
logged-out check and moves the counter from absent to 1 (the entry then
disappears only because destroy deletes it). -/
theorem loggedOut_close_increments_retries :
    (handleConnectionClose "acct1" (some DisconnectReason_loggedOut)
        (Registry.mk ["acct1"] [] [])).retriesIncremented = true
    ∧ (shouldReconnect "acct1" ([] : SMap Nat)).retries = [("acct1", 1)] := by
  exact ⟨by decide, by decide⟩

/-- C2 amended: on a logged-out close the session is destroyed immediately
and no reconnection timer is scheduled, but the retry counter is first
incremented by shouldReconnect whenever the stored attempt count is below
MAX_RECONNECT_RETRIES (and the transport logout is then skipped, because
destroy receives doNotReconnect, which is false in that case); the destroy
removes the retry entry, so afterwards no counter remains for the id. -/
theorem loggedOut_close_amended (sessionId : String) (st : Registry) :
    (handleConnectionClose sessionId (some DisconnectReason_loggedOut) st).destroyed = true
    ∧ (handleConnectionClose sessionId (some DisconnectReason_loggedOut) st).reconnectScheduled = false
    ∧ mget (handleConnectionClose sessionId (some DisconnectReason_loggedOut) st).registry.retries
        sessionId = none
    ∧ sessionId ∉ (handleConnectionClose sessionId (some DisconnectReason_loggedOut) st).registry.sessions
    ∧ ((handleConnectionClose sessionId (some DisconnectReason_loggedOut) st).retriesIncremented = true
        ↔ (mget st.retries sessionId).getD 0 < MAX_RECONNECT_RETRIES)
    ∧ ((handleConnectionClose sessionId (some DisconnectReason_loggedOut) st).destroyLogout = true
        ↔ ¬ (mget st.retries sessionId).getD 0 < MAX_RECONNECT_RETRIES) := by
  unfold handleConnectionClose shouldReconnect
  by_cases h : (mget st.retries sessionId).getD 0 < MAX_RECONNECT_RETRIES
  · simp [h, destroy, mget_mdel, not_mem_filter_ne]
  · simp [h, destroy, mget_mdel, not_mem_filter_ne]

/-- C2 amended witness: session acct1 with two prior retries, closed with the
logged-out reason. -/
theorem loggedOut_close_amended_witness :
    (handleConnectionClose "acct1" (some DisconnectReason_loggedOut)
        (Registry.mk ["acct1"] [("acct1", 2)] [])).destroyed = true
    ∧ (handleConnectionClose "acct1" (some DisconnectReason_loggedOut)
        (Registry.mk ["acct1"] [("acct1", 2)] [])).reconnectScheduled = false
    ∧ mget (handleConnectionClose "acct1" (some DisconnectReason_loggedOut)
        (Registry.mk ["acct1"] [("acct1", 2)] [])).registry.retries "acct1" = none
    ∧ "acct1" ∉ (handleConnectionClose "acct1" (some DisconnectReason_loggedOut)
        (Registry.mk ["acct1"] [("acct1", 2)] [])).registry.sessions
    ∧ ((handleConnectionClose "acct1" (some DisconnectReason_loggedOut)
        (Registry.mk ["acct1"] [("acct1", 2)] [])).retriesIncremented = true
        ↔ (mget (Registry.mk ["acct1"] [("acct1", 2)] []).retries "acct1").getD 0
            < MAX_RECONNECT_RETRIES)
    ∧ ((handleConnectionClose "acct1" (some DisconnectReason_loggedOut)
        (Registry.mk ["acct1"] [("acct1", 2)] [])).destroyLogout = true
        ↔ ¬ (mget (Registry.mk ["acct1"] [("acct1", 2)] []).retries "acct1").getD 0
            < MAX_RECONNECT_RETRIES) :=
  loggedOut_close_amended "acct1" (Registry.mk ["acct1"] [("acct1", 2)] [])

end BaileysApi
